import Mathlib

/-
Verification development for the click-to-go editor extension
(src/extension.ts). The extension patches "Go to Definition" for Python:
it forwards the request to the host pipeline, and when a returned location
lands in a .pyi stub file whose reported line carries a redirect comment
of the shape given by the regex in resolveRealLocation, it emits a location
in the real file instead. A second provider scans any document for
inline references of the shape given by the regex in provideDocumentLinks
and binds each to the clicktogo.jump command.

The embedding below translates the TypeScript source: JavaScript regular
expression matching for the two concrete patterns is implemented directly
(for these patterns, greedy matching with backtracking degenerates to a
maximal-run condition, established in comments at each definition), the
host API surface (document opening, workspace lookup, editors) is an
explicit record of capabilities, and the shared mutable recursion-guard
flag is threaded as explicit state.
-/

namespace ClickToGo

/-- JavaScript word character, the class denoted by backslash-w with no
unicode flag: ASCII letters, ASCII digits and underscore. -/
def isWordChar (c : Char) : Bool :=
  c.isAlpha || c.isDigit || c == '_'

/-- The character class of the redirect-comment regex in
resolveRealLocation (extension.ts line 85): word characters, dash,
forward slash and dot. -/
def redirectPathChar (c : Char) : Bool :=
  isWordChar c || c == '-' || c == '/' || c == '.'

/-- The character class of the inline-reference regex in
provideDocumentLinks (extension.ts line 115): word characters, dash,
forward slash and dot. -/
def inlinePathChar (c : Char) : Bool :=
  isWordChar c || c == '-' || c == '/' || c == '.'

/-- JavaScript digit class (0-9). -/
def isDigitChar (c : Char) : Bool :=
  '0' ≤ c && c ≤ '9'

/-- JavaScript whitespace class: the ECMA-262 WhiteSpace and
LineTerminator characters, that is tab, line feed, vertical tab, form
feed, carriage return, the Unicode space separators, the line and
paragraph separators, the narrow and medium spaces and the byte order
mark. -/
def isSpaceChar (c : Char) : Bool :=
  c == ' ' || c == '\t' || c == '\n' || c == '\r' || c == '\x0b' || c == '\x0c' ||
  c == '\u00A0' || c == '\u1680' || ('\u2000' ≤ c && c ≤ '\u200A') ||
  c == '\u2028' || c == '\u2029' || c == '\u202F' || c == '\u205F' ||
  c == '\u3000' || c == '\uFEFF'

/-- Longest prefix of the list whose characters all satisfy p, together
with the remaining suffix (the greedy match of a starred character
class). -/
def takeRun (p : Char → Bool) : List Char → List Char × List Char
  | [] => ([], [])
  | c :: cs =>
    if p c then
      let (run, rest) := takeRun p cs
      (c :: run, rest)
    else ([], c :: cs)

/-- Value of JavaScript parseInt(s, 10) on a nonempty all-digit capture. -/
def natOfDigits (ds : List Char) : Nat :=
  ds.foldl (fun acc c => acc * 10 + (c.toNat - 48)) 0

/-- Attempt, at the current position, the common tail of both regexes:
a capture group of one or more path characters followed by the literal
".py", then a colon, then a captured nonempty digit run. Returns the
path capture, the parsed line number and the total match length.

Greedy matching with backtracking degenerates here: the dot, p and y of
the literal ".py" are themselves path characters and the colon is not,
so the group is forced to consume the entire maximal path-character run,
which must end in ".py" and have length at least four (the group plus
requires one character before the literal). -/
def matchPathLine (pathChar : Char → Bool) (cs : List Char) :
    Option (List Char × Nat × Nat) :=
  let (run, rest) := takeRun pathChar cs
  if 4 ≤ run.length && run.drop (run.length - 3) == ['.', 'p', 'y'] then
    match rest with
    | ':' :: afterColon =>
      let (digits, _) := takeRun isDigitChar afterColon
      if digits.isEmpty then none
      else some (run, natOfDigits digits, run.length + 1 + digits.length)
    | _ => none
  else none

/-- Attempt the redirect-comment regex of resolveRealLocation at the
current position: a hash, then greedily matched whitespace, then the
common path-line tail. Whitespace characters are not path characters,
so the starred whitespace is forced to its maximal run. Returns the
captured relative path and parsed line number. -/
def redirectMatchHere (cs : List Char) : Option (List Char × Nat) :=
  match cs with
  | '#' :: afterHash =>
    let (_, afterSpaces) := takeRun isSpaceChar afterHash
    match matchPathLine redirectPathChar afterSpaces with
    | some (run, n, _) => some (run, n)
    | none => none
  | _ => none

/-- First match of the redirect-comment regex in a line of text, found by
trying successive start positions left to right (the semantics of exec
on a regex without the global flag). -/
def execRedirect : List Char → Option (List Char × Nat)
  | [] => none
  | c :: cs =>
    match redirectMatchHere (c :: cs) with
    | some r => some r
    | none => execRedirect cs

/-- One match of the inline-reference regex: start offset of the match
in the document text, the captured relative path, the parsed (1-based)
line number, and the length of the whole matched text. -/
structure RefMatch where
  index : Nat
  path : String
  lineNumber : Nat
  length : Nat
deriving DecidableEq

/-- Attempt the inline-reference regex of provideDocumentLinks at the
current position. -/
def inlineMatchHere (cs : List Char) : Option (List Char × Nat × Nat) :=
  matchPathLine inlinePathChar cs

/-- Worker for the global exec loop: i is the absolute offset of the
head of the remaining text, and skip is the number of characters still
to pass over before the next match attempt (positions inside the text
of the previous match are never retried, since exec resumes at
lastIndex, the offset just past the previous match). -/
def scanAux : List Char → Nat → Nat → List RefMatch
  | [], _, _ => []
  | _ :: rest, i, Nat.succ k => scanAux rest (i + 1) k
  | c :: rest, i, 0 =>
    match inlineMatchHere (c :: rest) with
    | some (run, n, len) =>
      ⟨i, String.mk run, n, len⟩ :: scanAux rest (i + 1) (len - 1)
    | none => scanAux rest (i + 1) 0

/-- All matches of the inline-reference regex in the document text, in
order: the semantics of the exec loop with the global flag, which finds
the leftmost match at or after the end of the previous match and
resumes immediately after its last character. The argument i is the
absolute offset of the head of the remaining text. -/
def scanInline (cs : List Char) (i : Nat) : List RefMatch :=
  scanAux cs i 0

/-- A zero-based position in a document, as in the host API. The line is
an integer because the source computes lineNumber - 1 on a JavaScript
number. -/
structure Position where
  line : Int
  character : Int
deriving DecidableEq

/-- A location as exchanged with the host: a file path (the fsPath of the
uri) and the start position of its range. -/
structure Location where
  fsPath : String
  start : Position
deriving DecidableEq

/-- JavaScript String.prototype.endsWith: the suffix test used on fsPath
values. -/
def jsEndsWith (s suffix : String) : Bool :=
  suffix.data == s.data.drop (s.data.length - suffix.data.length)

/-- Split a character list at forward slashes; the separators are
dropped and empty segments are kept (they vanish during
normalization). -/
def splitSlash : List Char → List (List Char)
  | [] => [[]]
  | c :: cs =>
    if c = '/' then [] :: splitSlash cs
    else
      match splitSlash cs with
      | seg :: segs => (c :: seg) :: segs
      | [] => [[c]]

/-- The segment loop of Node path normalization: empty and dot segments
vanish; a dot-dot segment pops the previous real segment, is kept when
the output already ends in dot-dot or when the path is relative and the
output is empty, and vanishes when it would climb above the root of an
absolute path. The first list is the output stack, held in reverse. -/
def processSegs (allowAboveRoot : Bool) :
    List (List Char) → List (List Char) → List (List Char)
  | stack, [] => stack
  | stack, seg :: rest =>
    if seg = [] ∨ seg = ['.'] then processSegs allowAboveRoot stack rest
    else if seg = ['.', '.'] then
      match stack with
      | top :: stack2 =>
        if top = ['.', '.'] then processSegs allowAboveRoot (seg :: stack) rest
        else processSegs allowAboveRoot stack2 rest
      | [] =>
        if allowAboveRoot then processSegs allowAboveRoot [seg] rest
        else processSegs allowAboveRoot [] rest
    else processSegs allowAboveRoot (seg :: stack) rest

/-- Node path.posix.normalize: resolve dot and dot-dot segments and
collapse repeated separators, keeping dot-dot segments that climb above
the start of a relative path and clamping them at the root of an
absolute one; an empty result collapses to the root, the dot path or
the dot-slash path as in Node. -/
def normalizePath (p : String) : String :=
  if p = "" then "."
  else
    let isAbsolute := p.data.head? == some '/'
    let trailingSeparator := p.data.getLast? == some '/'
    let stack := processSegs (!isAbsolute) [] (splitSlash p.data)
    let core := String.intercalate "/" (stack.reverse.map String.mk)
    if core = "" then
      if isAbsolute then "/" else if trailingSeparator then "./" else "."
    else
      let withTrailing := if trailingSeparator then core ++ "/" else core
      if isAbsolute then "/" ++ withTrailing else withTrailing

/-- Node path.posix.join on the two segments used at both call sites:
the non-empty segments joined by a separator, then normalized; with no
non-empty segment the result is the dot path. The host is modelled as
POSIX, where uri fsPath values use the forward slash separator. -/
def pathJoin (base rel : String) : String :=
  match [base, rel].filter (fun s => s != "") with
  | [] => "."
  | parts => normalizePath (String.intercalate "/" parts)

/-- The vscode Position constructor, which validates its arguments:
a negative line or character throws an illegal-argument error. -/
def mkPosition (line character : Int) : Except String Position :=
  if line < 0 then .error "Illegal argument: line must be non-negative"
  else if character < 0 then .error "Illegal argument: character must be non-negative"
  else .ok ⟨line, character⟩

/-- The host capabilities the definition provider consumes:
workspace.openTextDocument, returning the document as its list of line
texts or a thrown error, and workspace.getWorkspaceFolder, returning the
fsPath of the workspace folder enclosing a file, if any. -/
structure Host where
  openTextDocument : String → Except String (List String)
  getWorkspaceFolder : String → Option String

/-- TextDocument.lineAt: the text of the line at a zero-based index,
throwing on an index outside the document. -/
def lineAt (lines : List String) (n : Int) : Except String String :=
  if h : 0 ≤ n ∧ n.toNat < lines.length then
    .ok (lines.get ⟨n.toNat, h.2⟩)
  else
    .error "Illegal value for line"

/-- SmartRedirectDefinitionProvider.resolveRealLocation: open the stub
file, read the text of the line the location reports, run the
redirect-comment regex on it, and on a match inside an enclosing
workspace return the location at (workspace root joined with the
captured path, captured line minus one, column 0). Everything runs in
one try-block: any error thrown while opening or reading, and the
illegal-argument error the Position constructor throws when the
captured line is 0 (making the target line -1), is caught and yields no
location, as does a missing workspace or a line with no match. -/
def resolveRealLocation (host : Host) (location : Location) : Option Location :=
  match host.openTextDocument location.fsPath with
  | .error _ => none
  | .ok lines =>
    match lineAt lines location.start.line with
    | .error _ => none
    | .ok lineText =>
      match execRedirect lineText.data with
      | none => none
      | some (relativePath, lineNumber) =>
        match host.getWorkspaceFolder location.fsPath with
        | none => none
        | some workspaceFolder =>
          match mkPosition ((lineNumber : Int) - 1) 0 with
          | .error _ => none
          | .ok targetPos =>
            some ⟨pathJoin workspaceFolder (String.mk relativePath), targetPos⟩

/-- The inspection loop of provideDefinition over the upstream results:
for each location whose path ends in ".pyi", resolve it and push the
redirected location when resolution succeeds; every other location
contributes nothing. -/
def inspectLocations (host : Host) : List Location → List Location
  | [] => []
  | loc :: rest =>
    if jsEndsWith loc.fsPath ".pyi" then
      match resolveRealLocation host loc with
      | some real => real :: inspectLocations host rest
      | none => inspectLocations host rest
    else inspectLocations host rest

/-- Outcome of awaiting vscode.commands.executeCommand with
vscode.executeDefinitionProvider: undefined or another falsy value, a
value that is not an array, or an array of locations. -/
inductive UpstreamResult
  | undef
  | nonArray
  | locations (locs : List Location)
deriving DecidableEq

/-- SmartRedirectDefinitionProvider.provideDefinition with the shared
isFetching flag made explicit. The first argument is the value of the
flag when the invocation starts; the upstream argument is the outcome of
the awaited forwarded lookup. Returns the invocation result (a thrown
error propagates as Except.error) paired with the value of the flag when
the invocation returns. The guard returns undefined at once when the
flag is set; otherwise the body runs with the flag set and the finally
block clears it on every exit path. -/
def provideDefinition (isFetching : Bool) (host : Host)
    (upstream : Except String UpstreamResult) :
    Except String (Option (List Location)) × Bool :=
  if isFetching then (.ok none, isFetching)
  else
    let result : Except String (Option (List Location)) :=
      match upstream with
      | .error e => .error e
      | .ok .undef => .ok none
      | .ok .nonArray => .ok none
      | .ok (.locations locs) => .ok (some (inspectLocations host locs))
    (result, false)

/-- A document link produced by FileLineLinkProvider: the character
offsets of the span it covers in the document text, and the two
arguments of the clicktogo.jump command the source serializes into the
command uri target (the workspace-resolved absolute path and the
1-based line number). -/
structure DocumentLink where
  rangeStart : Nat
  rangeEnd : Nat
  targetPath : String
  targetLine : Nat
deriving DecidableEq

/-- The loop body of provideDocumentLinks over the regex matches: for
each match, look up the workspace folder of the document and, when one
exists, push a link covering the matched range whose target carries the
joined absolute path and the captured line number. -/
def linksLoop (host : Host) (documentPath : String) :
    List RefMatch → List DocumentLink
  | [] => []
  | m :: ms =>
    match host.getWorkspaceFolder documentPath with
    | some root =>
      ⟨m.index, m.index + m.length, pathJoin root m.path, m.lineNumber⟩ ::
        linksLoop host documentPath ms
    | none => linksLoop host documentPath ms

/-- FileLineLinkProvider.provideDocumentLinks: run the global
inline-reference regex over the full document text and build a link for
every match that has an enclosing workspace folder. -/
def provideDocumentLinks (host : Host) (documentPath : String)
    (text : String) : List DocumentLink :=
  linksLoop host documentPath (scanInline text.data 0)

/-- The host capabilities the jump command consumes: opening the target
document and showing it in an editor, each of which may throw. -/
structure JumpHost where
  openTextDocument : String → Except String Unit
  showTextDocument : Unit → Except String Unit

/-- The navigation performed on the success path of clicktogo.jump: the
opened path, the zero-based selection position, and the centered reveal. -/
structure JumpNav where
  path : String
  selectionLine : Int
  selectionCharacter : Int
  revealCentered : Bool
deriving DecidableEq

/-- What an invocation of clicktogo.jump does: either a navigation, or a
user-visible error message shown with window.showErrorMessage. There is
no thrown-exception outcome: the handler body is wrapped in a catch-all. -/
inductive JumpOutcome
  | navigated (nav : JumpNav)
  | errorShown (message : String)
deriving DecidableEq

/-- The try-block of the clicktogo.jump handler: open the document, show
it, then set the selection to (line - 1, 0) and reveal it centered.
Either await may throw. -/
def jumpBody (host : JumpHost) (filePath : String) (line : Int) :
    Except String JumpNav :=
  match host.openTextDocument filePath with
  | .error e => .error e
  | .ok doc =>
    match host.showTextDocument doc with
    | .error e => .error e
    | .ok _ => .ok ⟨filePath, line - 1, 0, true⟩

/-- The clicktogo.jump command handler: run the body and, on any thrown
error, show the message naming the file path instead of propagating. -/
def jump (host : JumpHost) (filePath : String) (line : Int) : JumpOutcome :=
  match jumpBody host filePath line with
  | .ok nav => .navigated nav
  | .error _ => .errorShown ("Could not open file: " ++ filePath)

end ClickToGo

namespace ClickToGo

/-- Decidable equality for thrown-or-returned outcomes, used to evaluate
the model on concrete inputs. -/
instance {ε α : Type} [DecidableEq ε] [DecidableEq α] : DecidableEq (Except ε α) :=
  fun a b =>
    match a, b with
    | .error x, .error y =>
      if h : x = y then isTrue (h ▸ rfl) else isFalse (fun hc => Except.noConfusion hc h)
    | .ok x, .ok y =>
      if h : x = y then isTrue (h ▸ rfl) else isFalse (fun hc => Except.noConfusion hc h)
    | .error _, .ok _ => isFalse (fun hc => Except.noConfusion hc)
    | .ok _, .error _ => isFalse (fun hc => Except.noConfusion hc)

/-- A concrete host for evaluating the model: one workspace rooted at
/proj, one readable stub file whose second line carries a redirect
comment; opening any other path throws. -/
def demoHost : Host where
  openTextDocument := fun p =>
    if p = "/proj/stubs/mod.pyi" then .ok ["import x", "# a/b.py:42"]
    else .error "ENOENT"
  getWorkspaceFolder := fun _ => some "/proj"

/-- An upstream location inside the readable stub file, reporting the
line that carries the redirect comment. -/
def stubLoc : Location := ⟨"/proj/stubs/mod.pyi", ⟨1, 5⟩⟩

/-- An upstream location in a stub file that cannot be opened. -/
def badLoc : Location := ⟨"/proj/stubs/bad.pyi", ⟨0, 0⟩⟩

/-- An upstream location that is not a stub file. -/
def plainLoc : Location := ⟨"/proj/real/a.py", ⟨3, 0⟩⟩

/-- An upstream location in the readable stub file whose reported line
lies outside the document, so reading it throws. -/
def oobLoc : Location := ⟨"/proj/stubs/mod.pyi", ⟨5, 0⟩⟩

/-- A host whose one readable stub carries a redirect comment with
captured line number 0. -/
def zeroHost : Host where
  openTextDocument := fun p =>
    if p = "/proj/stubs/zero.pyi" then .ok ["# a/b.py:0"]
    else .error "ENOENT"
  getWorkspaceFolder := fun _ => some "/proj"

/-- An upstream location on the line-zero redirect comment. -/
def zeroLoc : Location := ⟨"/proj/stubs/zero.pyi", ⟨0, 0⟩⟩

/-- A host with a workspace but no readable documents. -/
def projHost : Host where
  openTextDocument := fun _ => .error "ENOENT"
  getWorkspaceFolder := fun _ => some "/proj"

/-- A host with no enclosing workspace for any document. -/
def noWorkspaceHost : Host where
  openTextDocument := fun _ => .error "ENOENT"
  getWorkspaceFolder := fun _ => none

/-- A jump-command host on which every open attempt throws. -/
def missingHost : JumpHost where
  openTextDocument := fun _ => .error "cannot open"
  showTextDocument := fun _ => .ok ()

example : execRedirect "# a/b.py:42".data = some ("a/b.py".data, 42) := by decide
example : execRedirect "    # src/mod-x.py:7".data = some ("src/mod-x.py".data, 7) := by decide
example : execRedirect "x = 1  #\t a.py:03".data = some ("a.py".data, 3) := by decide
example : execRedirect "# a\\b.py:1".data = none := by decide
example : execRedirect "# b.py:1".data = some ("b.py".data, 1) := by decide
example : execRedirect "# .py:1".data = none := by decide
example : execRedirect "# foo.py bar".data = none := by decide
example : execRedirect "# a.py.py:12".data = some ("a.py.py".data, 12) := by decide
example : scanInline "see helpers/util.py:10 for details".data 0 =
    [⟨4, "helpers/util.py", 10, 18⟩] := by decide
example : scanInline "a.py:1 b.py:2".data 0 =
    [⟨0, "a.py", 1, 6⟩, ⟨7, "b.py", 2, 6⟩] := by decide
example : scanInline "a\\b.py:7".data 0 = [⟨2, "b.py", 7, 6⟩] := by decide
example : scanInline "nothing here".data 0 = [] := by decide
example : jsEndsWith "/proj/stubs/mod.pyi" ".pyi" = true := by decide
example : jsEndsWith "/proj/a/b.py" ".pyi" = false := by decide
example : pathJoin "/proj" "a/b.py" = "/proj/a/b.py" := by decide
example : pathJoin "root/" "a/b.py" = "root/a/b.py" := by decide
example : pathJoin "/proj" "../b.py" = "/b.py" := by decide
example : pathJoin "/proj" "a//b.py" = "/proj/a/b.py" := by decide
example : pathJoin "/proj" "./a.py" = "/proj/a.py" := by decide
example : pathJoin "" "a.py" = "a.py" := by decide
example : pathJoin "/proj" "../../x.py" = "/x.py" := by decide
example : pathJoin "proj" "../../x.py" = "../x.py" := by decide
example : pathJoin "/proj" "/abs/x.py" = "/proj/abs/x.py" := by decide
example : pathJoin "" "" = "." := by decide
example : normalizePath "a/../../x.py" = "../x.py" := by decide
example : normalizePath "/.." = "/" := by decide
example : mkPosition (-1) 0 = .error "Illegal argument: line must be non-negative" := by decide
example : mkPosition 41 0 = .ok ⟨41, 0⟩ := by decide

/-- The inspection loop is the filterMap of per-location resolution
restricted to stub paths. -/
lemma inspectLocations_eq (host : Host) (locs : List Location) :
    inspectLocations host locs = locs.filterMap (fun loc =>
      if jsEndsWith loc.fsPath ".pyi" then resolveRealLocation host loc else none) := by
  induction locs with
  | nil => rfl
  | cons l rest ih =>
    by_cases hp : jsEndsWith l.fsPath ".pyi" = true <;>
      rcases hres : resolveRealLocation host l with _ | real <;>
        simp [inspectLocations, List.filterMap_cons, hp, hres, ih]

/-- With an enclosing workspace, the link loop emits one link per match,
covering the match and targeting the workspace-joined path with the
captured line number. -/
lemma linksLoop_some (host : Host) (documentPath root : String)
    (hws : host.getWorkspaceFolder documentPath = some root) (ms : List RefMatch) :
    linksLoop host documentPath ms = ms.map (fun m =>
      ⟨m.index, m.index + m.length, pathJoin root m.path, m.lineNumber⟩) := by
  induction ms with
  | nil => rfl
  | cons m ms ih => simp [linksLoop, hws, ih]

/-- With no enclosing workspace, the link loop emits nothing. -/
lemma linksLoop_none (host : Host) (documentPath : String)
    (hws : host.getWorkspaceFolder documentPath = none) (ms : List RefMatch) :
    linksLoop host documentPath ms = [] := by
  induction ms with
  | nil => rfl
  | cons m ms ih => simp [linksLoop, hws, ih]

/-- A location that is not a stub or does not resolve contributes nothing
to the inspection loop, wherever it sits in the upstream list. -/
lemma inspectLocations_drop (host : Host) (l1 l2 : List Location) (loc : Location)
    (hskip : jsEndsWith loc.fsPath ".pyi" = false ∨ resolveRealLocation host loc = none) :
    inspectLocations host (l1 ++ loc :: l2) = inspectLocations host (l1 ++ l2) := by
  have hf : (if jsEndsWith loc.fsPath ".pyi" then resolveRealLocation host loc
      else none) = none := by
    rcases hskip with h | h <;> simp [h]
  rw [inspectLocations_eq, inspectLocations_eq]
  simp [List.filterMap_append, List.filterMap_cons, hf]

/-- C1 counterexample: the captured line number 0 satisfies every
hypothesis of the original claim (the stub location is a .pyi file, its
reported line matches the redirect-comment pattern, and an enclosing
workspace exists), yet the resolver emits no location at all for it:
the Position constructor throws on line -1 inside the try-block, the
catch swallows it, and the location is dropped, where the claim demands
exactly one redirected location at line 0 - 1. -/
theorem redirect_line_zero :
    jsEndsWith zeroLoc.fsPath ".pyi" = true ∧
    zeroHost.openTextDocument zeroLoc.fsPath = .ok ["# a/b.py:0"] ∧
    execRedirect "# a/b.py:0".data = some ("a/b.py".data, 0) ∧
    zeroHost.getWorkspaceFolder zeroLoc.fsPath = some "/proj" ∧
    resolveRealLocation zeroHost zeroLoc = none ∧
    provideDefinition false zeroHost (.ok (.locations [zeroLoc])) =
      (.ok (some []), false) := by
  decide

/-- C1 as amended: for an upstream stub (.pyi) location whose reported
line matches the redirect-comment pattern with a captured line number
of at least 1, and that lies in an enclosing workspace, the resolver
emits exactly one redirected location, whose path is the captured
relative path joined (in the path.join sense) to the workspace root,
whose line is the captured line number minus one, and whose column
is 0; a captured line number of 0 instead makes the Position
constructor throw, so that location is dropped. -/
theorem redirect_resolution (host : Host) (loc : Location) (lines : List String)
    (lineText : String) (rel : List Char) (n : Nat) (root : String)
    (hpyi : jsEndsWith loc.fsPath ".pyi" = true)
    (hopen : host.openTextDocument loc.fsPath = .ok lines)
    (hline : lineAt lines loc.start.line = .ok lineText)
    (hmatch : execRedirect lineText.data = some (rel, n))
    (hn : 1 ≤ n)
    (hws : host.getWorkspaceFolder loc.fsPath = some root) :
    resolveRealLocation host loc =
      some ⟨pathJoin root (String.mk rel), ⟨(n : Int) - 1, 0⟩⟩ ∧
    provideDefinition false host (.ok (.locations [loc])) =
      (.ok (some [⟨pathJoin root (String.mk rel), ⟨(n : Int) - 1, 0⟩⟩]), false) := by
  have hpos : mkPosition ((n : Int) - 1) 0 = .ok ⟨(n : Int) - 1, 0⟩ := by
    unfold mkPosition
    rw [if_neg (by omega), if_neg (by omega)]
  have h1 : resolveRealLocation host loc =
      some ⟨pathJoin root (String.mk rel), ⟨(n : Int) - 1, 0⟩⟩ := by
    simp [resolveRealLocation, hopen, hline, hmatch, hws, hpos]
  refine ⟨h1, ?_⟩
  calc provideDefinition false host (.ok (.locations [loc]))
      = (.ok (some (inspectLocations host [loc])), false) := rfl
    _ = (.ok (some [⟨pathJoin root (String.mk rel), ⟨(n : Int) - 1, 0⟩⟩]), false) := by
        simp [inspectLocations, hpyi, h1]

/-- Witness for C1, realizing the round-trip of the spec: the relative
path a/b.py and line 42 embedded as a comment in a stub under the
workspace root /proj resolve to /proj/a/b.py at 0-based line 41,
column 0, and the request on this one location returns exactly that one
location. -/
theorem redirect_resolution_witness :
    resolveRealLocation demoHost stubLoc = some ⟨"/proj/a/b.py", ⟨41, 0⟩⟩ ∧
    provideDefinition false demoHost (.ok (.locations [stubLoc])) =
      (.ok (some [⟨"/proj/a/b.py", ⟨41, 0⟩⟩]), false) :=
  redirect_resolution demoHost stubLoc ["import x", "# a/b.py:42"] "# a/b.py:42"
    ("a/b.py".data) 42 "/proj" (by decide) rfl rfl (by decide) (by decide) rfl

/-- C2: every location in the resolver output is the redirect of some
upstream stub location; an upstream location that is not a stub file, or
whose line has no matching comment, contributes nothing, and in
particular no original location is ever passed through. -/
theorem resolver_no_passthrough (host : Host) :
    (∀ (locs : List Location) (out : Location), out ∈ inspectLocations host locs →
      ∃ loc, loc ∈ locs ∧ jsEndsWith loc.fsPath ".pyi" = true ∧
        resolveRealLocation host loc = some out) ∧
    (∀ (l1 l2 : List Location) (loc : Location),
      jsEndsWith loc.fsPath ".pyi" = false ∨ resolveRealLocation host loc = none →
      inspectLocations host (l1 ++ loc :: l2) = inspectLocations host (l1 ++ l2)) := by
  constructor
  · intro locs out hout
    rw [inspectLocations_eq] at hout
    rcases List.mem_filterMap.mp hout with ⟨loc, hmem, hf⟩
    by_cases hp : jsEndsWith loc.fsPath ".pyi" = true
    · exact ⟨loc, hmem, hp, by simpa [hp] using hf⟩
    · simp [hp] at hf
  · exact fun l1 l2 loc hskip => inspectLocations_drop host l1 l2 loc hskip

/-- Witness for C2: with a non-stub location and a redirecting stub
location upstream, the only output is the redirect of the stub location,
and deleting the non-stub location leaves the output unchanged. -/
theorem resolver_no_passthrough_witness :
    (∃ loc, loc ∈ [plainLoc, stubLoc] ∧ jsEndsWith loc.fsPath ".pyi" = true ∧
      resolveRealLocation demoHost loc = some ⟨"/proj/a/b.py", ⟨41, 0⟩⟩) ∧
    inspectLocations demoHost ([] ++ plainLoc :: [stubLoc]) =
      inspectLocations demoHost ([] ++ [stubLoc]) := by
  have h := resolver_no_passthrough demoHost
  exact ⟨h.1 [plainLoc, stubLoc] ⟨"/proj/a/b.py", ⟨41, 0⟩⟩ (by decide),
         h.2 [] [stubLoc] plainLoc (Or.inl (by decide))⟩

/-- C3: with an enclosing workspace, the scanner returns one link per
match of the inline-reference pattern, covering exactly the matched
character range and targeting the jump command with the workspace-joined
absolute path and the 1-based captured line number; with no enclosing
workspace it returns no link at all. -/
theorem scanner_link_spans (host : Host) (documentPath text : String) :
    (∀ root, host.getWorkspaceFolder documentPath = some root →
      provideDocumentLinks host documentPath text =
        (scanInline text.data 0).map (fun m =>
          ⟨m.index, m.index + m.length, pathJoin root m.path, m.lineNumber⟩)) ∧
    (host.getWorkspaceFolder documentPath = none →
      provideDocumentLinks host documentPath text = []) :=
  ⟨fun root hws => linksLoop_some host documentPath root hws _,
   fun hws => linksLoop_none host documentPath hws _⟩

/-- Witness for C3, realizing the scenario of the spec: the text
"see helpers/util.py:10 for details" under workspace root /proj yields
exactly one link, spanning offsets 4 to 22 (the matched text
helpers/util.py:10) and targeting jump on /proj/helpers/util.py at line
10; the same text with no enclosing workspace yields no link. -/
theorem scanner_link_spans_witness :
    provideDocumentLinks projHost "/proj/notes.md"
      "see helpers/util.py:10 for details" = [⟨4, 22, "/proj/helpers/util.py", 10⟩] ∧
    provideDocumentLinks noWorkspaceHost "/elsewhere/notes.md"
      "see helpers/util.py:10 for details" = [] := by
  constructor
  · rw [(scanner_link_spans projHost "/proj/notes.md"
      "see helpers/util.py:10 for details").1 "/proj" rfl]
    decide
  · exact (scanner_link_spans noWorkspaceHost "/elsewhere/notes.md"
      "see helpers/util.py:10 for details").2 rfl

/-- C4 counterexample: the character class is [word, dash, slash, dot]
and does not contain the backslash, in either pattern; a relative path
containing a backslash is not matched by either pattern: the redirect
pattern fails outright on it (the hash is no longer followed by a
matching path) and the inline pattern captures only the portion after
the backslash. -/
theorem backslash_not_in_class :
    redirectPathChar '\\' = false ∧
    inlinePathChar '\\' = false ∧
    execRedirect "# a\\b.py:1".data = none ∧
    (scanInline "a\\b.py:7".data 0).map RefMatch.path = ["b.py"] ∧
    (scanInline "a\\b.py:7".data 0).map RefMatch.path ≠ ["a\\b.py"] := by
  decide

/-- C4 as amended: the two patterns accept exactly the same relative-path
characters, namely word characters, dot, dash and forward slash; the
backslash is not among them. -/
theorem path_char_class (c : Char) :
    redirectPathChar c = inlinePathChar c ∧
    (redirectPathChar c = true ↔
      (isWordChar c = true ∨ c = '.' ∨ c = '-' ∨ c = '/')) := by
  refine ⟨rfl, ?_⟩
  simp only [redirectPathChar, Bool.or_eq_true, beq_iff_eq]
  tauto

/-- C5: a re-entrant invocation (one that starts while the guard flag is
set by the invocation that triggered it) returns no result at once, so
the forwarded lookup never recurses; and every invocation that takes the
guard leaves the flag cleared on return, both when the upstream lookup
returns and when it throws (the thrown error propagating unchanged). -/
theorem reentrancy_guard (host : Host) :
    (∀ upstream, (provideDefinition true host upstream).fst = .ok none) ∧
    (∀ upstream, (provideDefinition false host upstream).snd = false) ∧
    (∀ e, provideDefinition false host (.error e) = (.error e, false)) :=
  ⟨fun _ => rfl, fun _ => rfl, fun _ => rfl⟩

/-- C6 fails on the code: the guard flag is shared mutable state of the
one registered provider instance, so an independent request that starts
while another request is suspended awaiting its upstream lookup (the
flag then being set) is guarded out and returns no result, although the
same request run alone returns its redirected location. The two runs
below differ only in whether another request is in flight. -/
theorem guard_interference :
    (provideDefinition false demoHost (.ok (.locations [stubLoc]))).fst =
      .ok (some [⟨"/proj/a/b.py", ⟨41, 0⟩⟩]) ∧
    (provideDefinition true demoHost (.ok (.locations [stubLoc]))).fst = .ok none ∧
    (provideDefinition false demoHost (.ok (.locations [stubLoc]))).fst ≠
      (provideDefinition true demoHost (.ok (.locations [stubLoc]))).fst := by
  decide

/-- C7: an error thrown while opening the candidate stub file, or while
reading the line the location reports (lineAt throws when the reported
line lies outside the document), is caught and treated as no redirect
for that location: resolution yields nothing for it, the remaining
upstream locations are still processed, and the whole request still
returns normally. -/
theorem read_error_skips (host : Host) (loc : Location) (e : String)
    (hfail : host.openTextDocument loc.fsPath = .error e ∨
      ∃ lines, host.openTextDocument loc.fsPath = .ok lines ∧
        lineAt lines loc.start.line = .error e) :
    resolveRealLocation host loc = none ∧
    ∀ (l1 l2 : List Location),
      provideDefinition false host (.ok (.locations (l1 ++ loc :: l2))) =
        (.ok (some (inspectLocations host (l1 ++ l2))), false) := by
  have hres : resolveRealLocation host loc = none := by
    rcases hfail with h | ⟨lines, hok, hlineErr⟩
    · simp [resolveRealLocation, h]
    · simp [resolveRealLocation, hok, hlineErr]
  refine ⟨hres, fun l1 l2 => ?_⟩
  calc provideDefinition false host (.ok (.locations (l1 ++ loc :: l2)))
      = (.ok (some (inspectLocations host (l1 ++ loc :: l2))), false) := rfl
    _ = (.ok (some (inspectLocations host (l1 ++ l2))), false) := by
        rw [inspectLocations_drop host l1 l2 loc (Or.inr hres)]

/-- Witness for C7, covering both error kinds: one stub that cannot be
opened and one whose reported line is out of range both resolve to
nothing; the request on the readable redirecting stub together with the
unreadable one still returns normally with exactly the redirect of the
readable one. -/
theorem read_error_skips_witness :
    resolveRealLocation demoHost badLoc = none ∧
    resolveRealLocation demoHost oobLoc = none ∧
    provideDefinition false demoHost (.ok (.locations ([stubLoc] ++ badLoc :: [oobLoc]))) =
      (.ok (some (inspectLocations demoHost ([stubLoc] ++ [oobLoc]))), false) ∧
    inspectLocations demoHost ([stubLoc] ++ [oobLoc]) = [⟨"/proj/a/b.py", ⟨41, 0⟩⟩] := by
  have h1 := read_error_skips demoHost badLoc "ENOENT" (Or.inl rfl)
  have h2 := read_error_skips demoHost oobLoc "Illegal value for line"
    (Or.inr ⟨["import x", "# a/b.py:42"], rfl, rfl⟩)
  exact ⟨h1.1, h2.1, h1.2 [stubLoc] [oobLoc], by decide⟩

/-- C8: when opening the jump target throws, the jump command shows a
user-visible error message that names the failed path, and returns
normally instead of propagating the exception (its outcome type has no
thrown case: the handler body is wrapped in a catch-all). -/
theorem jump_open_error (host : JumpHost) (filePath : String) (line : Int) (e : String)
    (hfail : host.openTextDocument filePath = .error e) :
    jump host filePath line = .errorShown ("Could not open file: " ++ filePath) := by
  simp [jump, jumpBody, hfail]

/-- Witness for C8: jumping to a path that cannot be opened surfaces the
error message naming that exact path. -/
theorem jump_open_error_witness :
    jump missingHost "/missing/moved.py" 5 =
      .errorShown "Could not open file: /missing/moved.py" :=
  jump_open_error missingHost "/missing/moved.py" 5 "cannot open" rfl

/-- C9: when the upstream definition lookup returns nothing (a falsy
value) or a malformed non-array value, the resolver returns no
definition, as a normal result rather than an error. -/
theorem upstream_nothing_or_malformed (host : Host) :
    provideDefinition false host (.ok .undef) = (.ok none, false) ∧
    provideDefinition false host (.ok .nonArray) = (.ok none, false) :=
  ⟨rfl, rfl⟩

/-- C10: the two link-producing components share one path-resolution
policy: a captured relative path is resolved by joining it to the root
of the workspace folder enclosing the document, so on the same captured
path and the same workspace root the redirect location and the document
link carry the same absolute path. -/
theorem shared_resolution_policy (host : Host) (loc : Location) (lines : List String)
    (lineText : String) (rel : List Char) (n : Nat) (root : String)
    (documentPath text : String) (m : RefMatch)
    (hopen : host.openTextDocument loc.fsPath = .ok lines)
    (hline : lineAt lines loc.start.line = .ok lineText)
    (hmatch : execRedirect lineText.data = some (rel, n))
    (hn : 1 ≤ n)
    (hws1 : host.getWorkspaceFolder loc.fsPath = some root)
    (hm : m ∈ scanInline text.data 0)
    (hpath : m.path = String.mk rel)
    (hws2 : host.getWorkspaceFolder documentPath = some root) :
    ∃ out link,
      resolveRealLocation host loc = some out ∧
      link ∈ provideDocumentLinks host documentPath text ∧
      out.fsPath = pathJoin root (String.mk rel) ∧
      link.targetPath = pathJoin root (String.mk rel) ∧
      out.fsPath = link.targetPath := by
  have hpos : mkPosition ((n : Int) - 1) 0 = .ok ⟨(n : Int) - 1, 0⟩ := by
    unfold mkPosition
    rw [if_neg (by omega), if_neg (by omega)]
  have h1 : resolveRealLocation host loc =
      some ⟨pathJoin root (String.mk rel), ⟨(n : Int) - 1, 0⟩⟩ := by
    simp [resolveRealLocation, hopen, hline, hmatch, hws1, hpos]
  have h2 : provideDocumentLinks host documentPath text =
      (scanInline text.data 0).map (fun mm =>
        ⟨mm.index, mm.index + mm.length, pathJoin root mm.path, mm.lineNumber⟩) :=
    linksLoop_some host documentPath root hws2 _
  refine ⟨⟨pathJoin root (String.mk rel), ⟨(n : Int) - 1, 0⟩⟩,
    ⟨m.index, m.index + m.length, pathJoin root m.path, m.lineNumber⟩,
    h1, ?_, rfl, ?_, ?_⟩
  · rw [h2]
    exact List.mem_map_of_mem _ hm
  · simp [hpath]
  · simp [hpath]

/-- Witness for C10: the same captured relative path a/b.py, once from a
redirect comment in a stub and once from an inline reference in a
document of the same workspace, resolves to the same absolute path. -/
theorem shared_resolution_policy_witness :
    ∃ out link,
      resolveRealLocation demoHost stubLoc = some out ∧
      link ∈ provideDocumentLinks demoHost "/proj/notes.md" "see a/b.py:42" ∧
      out.fsPath = pathJoin "/proj" (String.mk ("a/b.py".data)) ∧
      link.targetPath = pathJoin "/proj" (String.mk ("a/b.py".data)) ∧
      out.fsPath = link.targetPath :=
  shared_resolution_policy demoHost stubLoc ["import x", "# a/b.py:42"] "# a/b.py:42"
    ("a/b.py".data) 42 "/proj" "/proj/notes.md" "see a/b.py:42" ⟨4, "a/b.py", 42, 9⟩
    rfl rfl (by decide) (by decide) rfl (by decide) (by decide) rfl

end ClickToGo
